import Mathlib

/-!
Shallow embedding of the Thrift proxy connection manager
(`src/source/extensions/filters/network/thrift_proxy/conn_manager.cc`).

Pure state threading replaces the C++ mutation: every method of
`ConnectionManager`, `ActiveRpc` and `ResponseDecoder` becomes a function
from the connection-manager state `CM` (plus its explicit inputs) to an
updated state.  External collaborators (the frame decoder, the router, the
filter chain) are abstracted as explicit inputs: the downstream decoder is
a script of per-call results, the router is a function argument, and the
inner response decoder's outcome is a parameter of `upstreamData`.
Fallible paths in the C++ (dereferencing the front of an empty list, a null
`shared_ptr`, or an empty `optional`) return `none`.
-/

set_option autoImplicit false

namespace ThriftProxy

/-- Thrift message types (the `MessageType` enum). -/
inductive MessageType
  | Call
  | Reply
  | Exception
  | Oneway
deriving DecidableEq

/-- Thrift struct field types (the `FieldType` enum). -/
inductive FieldType
  | Stop
  | Void
  | Bool
  | Byte
  | Double
  | I16
  | I32
  | I64
  | String
  | Struct
  | Map
  | Set
  | List
deriving DecidableEq

/-- Thrift protocol variants (the `ProtocolType` enum). -/
inductive ProtocolType
  | Binary
  | Compact
  | Auto
deriving DecidableEq

/-- Thrift transport variants (the `TransportType` enum). -/
inductive TransportType
  | Framed
  | Unframed
  | Header
  | Auto
deriving DecidableEq

/-- Decoder filter status (`FilterStatus`), also standing in for
`Network::FilterStatus` which has the same two values. -/
inductive FilterStatus
  | Continue
  | StopIteration
deriving DecidableEq

/-- Connection close modes (`Network::ConnectionCloseType`). -/
inductive CloseType
  | FlushWrite
  | NoFlush
deriving DecidableEq

/-- Connection events (`Network::ConnectionEvent`). -/
inductive ConnectionEvent
  | RemoteClose
  | LocalClose
  | Connected
deriving DecidableEq

/-- Thrift application exception type codes (`AppExceptionType`). -/
inductive AppExceptionType
  | Unknown
  | BadSequenceId
  | InternalError
  | ProtocolError
deriving DecidableEq

/-- Data of a thrown `AppException`: its type code and its `what()` text. -/
structure AppExceptionData where
  type : AppExceptionType
  what : String
deriving DecidableEq

/-- Per-message envelope (`MessageMetadata`).  All attributes are optional
until the decoder fills them in; `isProtocolUpgradeMessage` defaults to
false. -/
structure MessageMetadata where
  methodName : Option String := none
  messageType : Option MessageType := none
  sequenceId : Option Int := none
  protocol : Option ProtocolType := none
  isProtocolUpgradeMessage : Bool := false
deriving DecidableEq

/-- Modelled from the spec: a default-constructed `MessageMetadata` (the
constructor lives in a header not under src/) has every attribute absent,
per §3 of the spec ("message name (optional), ...").  Used by the
catch-AppException arm of `dispatch` when no RPC exists. -/
def blankMetadata : MessageMetadata := {}

/-- A `DirectResponse` sent via `sendLocalReply`.  The only variant the
claims exercise is an `AppException` (which implements `DirectResponse`). -/
inductive DirectResponse
  | appEx (e : AppExceptionData)
deriving DecidableEq

/-- One re-encoded event appended to the `ResponseDecoder`'s accumulation
buffer by the `ProtocolConverter` base class. -/
inductive ConvEvent
  | messageBegin (m : MessageMetadata)
  | fieldBegin (name : String) (t : FieldType) (id : Int)
  | passthrough (tag : Nat)
deriving DecidableEq

/-- Body of a frame written to the downstream connection: either a
`DirectResponse` encoded by `sendLocalReply`, or the converter payload
accumulated by a `ResponseDecoder`. -/
inductive FrameBody
  | direct (r : DirectResponse)
  | converted (payload : List ConvEvent)
deriving DecidableEq

/-- A frame written to the downstream connection: the transport used to
frame it, the metadata passed to `encodeFrame` (protocol already set), and
the body. -/
structure Frame where
  transport : TransportType
  metadata : MessageMetadata
  body : FrameBody
deriving DecidableEq

/-- The downstream connection handle: the ordered log of frames written and
whether (and how) the connection has been closed. -/
structure Connection where
  writes : List Frame := []
  closed : Option CloseType := none
deriving DecidableEq

/-- The fourteen stats counters of `ThriftFilterStats`. -/
structure Stats where
  request : Nat := 0
  request_call : Nat := 0
  request_oneway : Nat := 0
  request_invalid_type : Nat := 0
  request_decoding_error : Nat := 0
  response : Nat := 0
  response_reply : Nat := 0
  response_exception : Nat := 0
  response_invalid_type : Nat := 0
  response_success : Nat := 0
  response_error : Nat := 0
  response_decoding_error : Nat := 0
  cx_destroy_local_with_active_rq : Nat := 0
  cx_destroy_remote_with_active_rq : Nat := 0
deriving DecidableEq

/-- Per-RPC upstream reply sink (`ConnectionManager::ResponseDecoder`):
rewrites the reply frame for the downstream connection. -/
structure ResponseDecoder where
  metadata : Option MessageMetadata
  first_reply_field : Bool
  success : Option Bool
  complete : Bool
  response_buffer : List ConvEvent
deriving DecidableEq

/-- Modelled from the spec: freshly constructed `ResponseDecoder` state (the
constructor initializers live in conn_manager.h, not under src/).  Per
§4.3, `success` is "absent until the first reply field is seen", the
accumulation buffer starts empty, and `complete` / `first_reply_field`
start false. -/
def freshResponseDecoder : ResponseDecoder :=
  { metadata := none
    first_reply_field := false
    success := none
    complete := false
    response_buffer := [] }

/-- A route handle (`Router::RouteConstSharedPtr`); the concrete router is
external, so routes are opaque identifiers. -/
abbrev Route := Nat

/-- One in-flight downstream request (`ConnectionManager::ActiveRpc`).
`cached_route = none` is the unresolved state; `some none` is
resolved-to-no-route; `some (some r)` is resolved-to-route. -/
structure ActiveRpc where
  metadata : Option MessageMetadata
  original_sequence_id : Int
  cached_route : Option (Option Route)
  stream_id : Nat
  response_decoder : Option ResponseDecoder
deriving DecidableEq

/-- Modelled from the spec: a freshly constructed `ActiveRpc` (constructor
in conn_manager.h, not under src/).  Per §3, metadata, the route cache and
the response decoder start absent; `original_sequence_id` starts 0 and
`stream_id` comes from the runtime's random generator, passed in here. -/
def freshRpc (stream_id : Nat) : ActiveRpc :=
  { metadata := none
    original_sequence_id := 0
    cached_route := none
    stream_id := stream_id
    response_decoder := none }

/-- Per-connection controller state (`ConnectionManager`).  `deferred` is
the dispatcher's deferred-delete queue: RPCs removed from `rpcs` land there
in removal order. `upstream_resets` counts
`decoder_filter_->resetUpstreamConnection()` calls. `transportType` and
`protocolType` describe the manager-owned `transport_` / `protocol_`;
`decoderTransportType` / `decoderProtocolType` are the downstream decoder's
post-detection concrete types. -/
structure CM where
  stats : Stats := {}
  conn : Connection := {}
  rpcs : List ActiveRpc := []
  deferred : List ActiveRpc := []
  request_buffer : List Nat := []
  stopped : Bool := false
  half_closed : Bool := false
  transportType : TransportType := TransportType.Framed
  protocolType : ProtocolType := ProtocolType.Binary
  decoderTransportType : TransportType := TransportType.Framed
  decoderProtocolType : ProtocolType := ProtocolType.Binary
  upstream_resets : Nat := 0
deriving DecidableEq

/-- Append a frame to the downstream connection's write log
(`read_callbacks_->connection().write(buffer, false)`). -/
def CM.writeFrame (f : Frame) (s : CM) : CM :=
  { s with conn := { s.conn with writes := s.conn.writes ++ [f] } }

/-- Close the downstream connection
(`connection().close(ConnectionCloseType::FlushWrite)`). -/
def CM.closeFlush (s : CM) : CM :=
  { s with conn := { s.conn with closed := some CloseType.FlushWrite } }

/-- Close the downstream connection with `NoFlush`
(`ActiveRpc::resetDownstreamConnection`). -/
def CM.closeNoFlush (s : CM) : CM :=
  { s with conn := { s.conn with closed := some CloseType.NoFlush } }

/-- Increment `stats_.request_decoding_error_`. -/
def CM.incRequestDecodingError (s : CM) : CM :=
  { s with stats := { s.stats with
      request_decoding_error := s.stats.request_decoding_error + 1 } }

/-- Increment `stats_.response_decoding_error_`. -/
def CM.incResponseDecodingError (s : CM) : CM :=
  { s with stats := { s.stats with
      response_decoding_error := s.stats.response_decoding_error + 1 } }

/-- Increment one of the two `cx_destroy_*_with_active_rq` counters, as the
body of the `resetAllRpcs` loop does (conn_manager.cc:124-130). -/
def CM.bumpCxDestroy (local_reset : Bool) (s : CM) : CM :=
  if local_reset then
    { s with stats := { s.stats with
        cx_destroy_local_with_active_rq :=
          s.stats.cx_destroy_local_with_active_rq + 1 } }
  else
    { s with stats := { s.stats with
        cx_destroy_remote_with_active_rq :=
          s.stats.cx_destroy_remote_with_active_rq + 1 } }

/-- Modelled from the spec: `ConnectionManager::doDeferredRpcDestroy`
(conn_manager.cc:118-120) calls `rpc.removeFromList(rpcs_)` and hands the
removed RPC to `dispatcher().deferredDelete`.  `removeFromList` is a
`LinkedObject` helper not under src/; per §5 ("Deferred deletion") the RPC
is unlinked from `rpcs` and parked until the event-loop turn unwinds, which
we model as appending it to the `deferred` queue.  The RPC is identified by
its index `i` in `rpcs`. -/
def CM.doDeferredRpcDestroy (i : Nat) (s : CM) : CM :=
  match s.rpcs[i]? with
  | none => s
  | some r =>
    { s with
      rpcs := s.rpcs.eraseIdx i
      deferred := s.deferred ++ [r] }

/-- Model of `decoder_filter_->resetUpstreamConnection()`: the terminal
decoder filter owns the upstream lifecycle (external), so the model just
counts the reset requests. -/
def CM.resetUpstream (s : CM) : CM :=
  { s with upstream_resets := s.upstream_resets + 1 }

/-- `ConnectionManager::sendLocalReply` (conn_manager.cc:92-103): encode the
response through the current protocol, set `metadata.protocol` to the
manager protocol's type, frame with the manager transport, and write
downstream with no flush-close.  (The C++ mutates the caller's metadata via
`setProtocol`; the frame records the mutated copy.) -/
def CM.sendLocalReply (metadata : MessageMetadata) (response : DirectResponse)
    (s : CM) : CM :=
  let m := { metadata with protocol := some s.protocolType }
  s.writeFrame { transport := s.transportType, metadata := m,
                 body := FrameBody.direct response }

/-- Fuel-indexed body of `ConnectionManager::resetAllRpcs`
(conn_manager.cc:122-134): `while (!rpcs_.empty())`, bump the proper
`cx_destroy_*_with_active_rq` counter, then `rpcs_.front()->onReset()`,
which (via `doDeferredRpcDestroy`) removes the front RPC from the list.
Each iteration removes exactly one RPC, so `s.rpcs.length` fuel runs the
loop to completion; the fuel only encodes that termination measure. -/
def CM.resetAllRpcsGo (local_reset : Bool) : Nat → CM → CM
  | 0, s => s
  | fuel + 1, s =>
    match s.rpcs with
    | [] => s
    | _ :: _ =>
      CM.resetAllRpcsGo local_reset fuel
        (CM.doDeferredRpcDestroy 0 (CM.bumpCxDestroy local_reset s))

/-- `ConnectionManager::resetAllRpcs(local_reset)` (conn_manager.cc:122-134). -/
def CM.resetAllRpcs (local_reset : Bool) (s : CM) : CM :=
  CM.resetAllRpcsGo local_reset s.rpcs.length s

/-- `ConnectionManager::onEvent` (conn_manager.cc:143-145):
`resetAllRpcs(event == ConnectionEvent::LocalClose)` — unconditionally, for
every connection event. -/
def CM.onEvent (event : ConnectionEvent) (s : CM) : CM :=
  CM.resetAllRpcs (event = ConnectionEvent.LocalClose) s

/-- Modelled from the spec: the list insertion inside
`ConnectionManager::newDecoderEventHandler` (conn_manager.cc:147-155) is
`new_rpc->moveIntoList(std::move(new_rpc), rpcs_)`, a `LinkedObject`
helper not under src/.  Per §3 of the spec, `rpcs` is "ordered by arrival;
the head is oldest in flight", so insertion appends at the back. -/
def moveIntoList (rpc : ActiveRpc) (l : List ActiveRpc) : List ActiveRpc :=
  l ++ [rpc]

/-- `ConnectionManager::newDecoderEventHandler` (conn_manager.cc:147-155):
construct a fresh `ActiveRpc` (its `stream_id` drawn from the runtime's
random generator, passed in), create its filter chain (external, no state
effect here), move it into `rpcs_`, and return `**rpcs_.begin()` together
with the updated state. -/
def CM.newDecoderEventHandler (stream_id : Nat) (s : CM) : ActiveRpc × CM :=
  let rpcs := moveIntoList (freshRpc stream_id) s.rpcs
  (rpcs.headD (freshRpc stream_id), { s with rpcs := rpcs })

/-- `ConnectionManager::ActiveRpc::onReset` (conn_manager.cc:290-293) for
the RPC at index `i` of `rpcs`: `parent_.doDeferredRpcDestroy(*this)`. -/
def ActiveRpc.onReset (i : Nat) (s : CM) : CM :=
  CM.doDeferredRpcDestroy i s

/-- `ConnectionManager::ActiveRpc::sendLocalReply` (conn_manager.cc:325-330)
for the RPC at index `i` of `rpcs`: restore
`metadata_->setSequenceId(original_sequence_id_)`, delegate to
`ConnectionManager::sendLocalReply`, then deferred-destroy this RPC.
Returns `none` when the RPC is gone or its `metadata_` shared pointer is
null (the C++ dereference would be undefined behavior). -/
def ActiveRpc.sendLocalReplyAt (i : Nat) (response : DirectResponse)
    (s : CM) : Option CM :=
  match s.rpcs[i]? with
  | none => none
  | some rpc =>
    match rpc.metadata with
    | none => none
    | some m =>
      let m := { m with sequenceId := some rpc.original_sequence_id }
      let s := { s with rpcs := s.rpcs.set i { rpc with metadata := some m } }
      let s := CM.sendLocalReply m response s
      some (CM.doDeferredRpcDestroy i s)

/-- `ConnectionManager::ActiveRpc::onError` (conn_manager.cc:295-303) for
the RPC at index `i`: when a `messageBegin` has been parsed (metadata
present), send a local `AppException(ProtocolError, what)` reply; otherwise
remain silent.  `none` only when no RPC lives at index `i`. -/
def ActiveRpc.onError (i : Nat) (what : String) (s : CM) : Option CM :=
  match s.rpcs[i]? with
  | none => none
  | some rpc =>
    match rpc.metadata with
    | some _ =>
      ActiveRpc.sendLocalReplyAt i
        (DirectResponse.appEx { type := AppExceptionType.ProtocolError, what := what }) s
    | none => some s

/-- `ConnectionManager::ActiveRpc::route` (conn_manager.cc:311-323).  The
router configuration is external, passed as the function `router`; the
third component counts how many times the router was consulted (0 or 1).
An unresolved cache with metadata computes and caches the route; with null
metadata it caches `nullptr` (resolved-to-None) without consulting the
router; a resolved cache returns `cached_route_.value()` untouched. -/
def ActiveRpc.route (router : MessageMetadata → Nat → Option Route)
    (rpc : ActiveRpc) : Option Route × ActiveRpc × Nat :=
  match rpc.cached_route with
  | some v => (v, rpc, 0)
  | none =>
    match rpc.metadata with
    | some m =>
      let r := router m rpc.stream_id
      (r, { rpc with cached_route := some r }, 1)
    | none => (none, { rpc with cached_route := some none }, 0)

/-- `ConnectionManager::ResponseDecoder::messageBegin`
(conn_manager.cc:166-173): store the metadata, rewrite its sequence ID to
the parent RPC's `original_sequence_id_`, set `first_reply_field_` iff the
message type is `Reply`, and forward (the rewritten metadata) to the
protocol converter, which appends its re-encoding to the buffer. -/
def ResponseDecoder.messageBegin (original_sequence_id : Int)
    (metadata : MessageMetadata) (rd : ResponseDecoder) : ResponseDecoder :=
  let m := { metadata with sequenceId := some original_sequence_id }
  { rd with
    metadata := some m
    first_reply_field := decide (m.messageType = some MessageType.Reply)
    response_buffer := rd.response_buffer ++ [ConvEvent.messageBegin m] }

/-- `ConnectionManager::ResponseDecoder::fieldBegin`
(conn_manager.cc:175-187): on the very first field of a `Reply`, classify
`success_ = (field_id == 0 && field_type != FieldType::Stop)` and clear
`first_reply_field_`; then delegate to the converter. -/
def ResponseDecoder.fieldBegin (name : String) (field_type : FieldType)
    (field_id : Int) (rd : ResponseDecoder) : ResponseDecoder :=
  let rd :=
    if rd.first_reply_field then
      { rd with
        success := some ((field_id == 0) && !(field_type == FieldType.Stop))
        first_reply_field := false }
    else rd
  { rd with response_buffer :=
      rd.response_buffer ++ [ConvEvent.fieldBegin name field_type field_id] }

/-- `ConnectionManager::ResponseDecoder::transportEnd`
(conn_manager.cc:189-231): frame the accumulated payload with a fresh
transport built from the downstream decoder's concrete transport type, set
`metadata_->setProtocol(decoder_->protocolType())`, write the frame
downstream, mark complete, bump `response_` and the per-type response
counter (for `Reply`, `response_success_` iff `success_.value_or(false)`,
else `response_error_`).  `none` models the `ASSERT(metadata_ != nullptr)`
and the `messageType()` read of an absent optional. -/
def ResponseDecoder.transportEnd (rd : ResponseDecoder) (s : CM) :
    Option (ResponseDecoder × CM) :=
  match rd.metadata with
  | none => none
  | some m =>
    match m.messageType with
    | none => none
    | some mt =>
      let m := { m with protocol := some s.decoderProtocolType }
      let s := s.writeFrame
        { transport := s.decoderTransportType, metadata := m,
          body := FrameBody.converted rd.response_buffer }
      let rd := { rd with metadata := some m, complete := true }
      let s := { s with stats := { s.stats with response := s.stats.response + 1 } }
      let s :=
        match mt with
        | MessageType.Reply =>
          let s := { s with stats :=
            { s.stats with response_reply := s.stats.response_reply + 1 } }
          if rd.success.getD false then
            { s with stats :=
              { s.stats with response_success := s.stats.response_success + 1 } }
          else
            { s with stats :=
              { s.stats with response_error := s.stats.response_error + 1 } }
        | MessageType.Exception =>
          { s with stats :=
            { s.stats with response_exception := s.stats.response_exception + 1 } }
        | _ =>
          { s with stats :=
            { s.stats with response_invalid_type := s.stats.response_invalid_type + 1 } }
      some (rd, s)

/-- One structured event delivered by the `ResponseDecoder`'s inner frame
decoder while parsing the upstream reply.  `passthrough` stands for the
events (structBegin, values, messageEnd, ...) that the converter re-encodes
without touching `ResponseDecoder` state. -/
inductive UpstreamEvent
  | messageBegin (m : MessageMetadata)
  | fieldBegin (name : String) (t : FieldType) (id : Int)
  | passthrough (tag : Nat)
  | transportEnd
deriving DecidableEq

/-- Apply one upstream decoder event to a `ResponseDecoder`. -/
def rdStep (original_sequence_id : Int) (e : UpstreamEvent)
    (rd : ResponseDecoder) (s : CM) : Option (ResponseDecoder × CM) :=
  match e with
  | UpstreamEvent.messageBegin m =>
    some (ResponseDecoder.messageBegin original_sequence_id m rd, s)
  | UpstreamEvent.fieldBegin name t id =>
    some (ResponseDecoder.fieldBegin name t id rd, s)
  | UpstreamEvent.passthrough tag =>
    some ({ rd with response_buffer :=
              rd.response_buffer ++ [ConvEvent.passthrough tag] }, s)
  | UpstreamEvent.transportEnd => ResponseDecoder.transportEnd rd s

/-- Run a `ResponseDecoder` over a sequence of upstream decoder events. -/
def runResponseDecoder (original_sequence_id : Int) :
    List UpstreamEvent → ResponseDecoder → CM → Option (ResponseDecoder × CM)
  | [], rd, s => some (rd, s)
  | e :: evs, rd, s =>
    match rdStep original_sequence_id e rd s with
    | none => none
    | some (rd, s) => runResponseDecoder original_sequence_id evs rd s

/-- Outcome of one `response_decoder_->onData(buffer)` call inside
`ActiveRpc::upstreamData`: the inner decoder (external) either returns with
an updated decoder state — the call returns `complete_` — or throws. -/
inductive RdOnDataOutcome
  | ok (rd : ResponseDecoder)
  | throwApp (ex : AppExceptionData)
  | throwDecode (msg : String)
deriving DecidableEq

/-- `ConnectionManager::ActiveRpc::upstreamData` (conn_manager.cc:338-363)
for the RPC at index `i`; returns the `bool` result and the new state.  On
normal completion, deferred-destroy self and return `complete_`; on
`AppException`, bump `response_decoding_error_`, send the exception as a
local reply, reset the upstream connection, return true; on a generic
`EnvoyException`, bump `response_decoding_error_`, call `onError`, reset
the upstream connection, return true.  `none` models the
`ASSERT(response_decoder_ != nullptr)` and the UB paths inside. -/
def ActiveRpc.upstreamData (i : Nat) (outcome : RdOnDataOutcome) (s : CM) :
    Option (Bool × CM) :=
  match s.rpcs[i]? with
  | none => none
  | some rpc =>
    match rpc.response_decoder with
    | none => none
    | some _ =>
      match outcome with
      | RdOnDataOutcome.ok rd =>
        let s := { s with rpcs := s.rpcs.set i { rpc with response_decoder := some rd } }
        if rd.complete then some (true, CM.doDeferredRpcDestroy i s)
        else some (false, s)
      | RdOnDataOutcome.throwApp ex =>
        let s := s.incResponseDecodingError
        match ActiveRpc.sendLocalReplyAt i (DirectResponse.appEx ex) s with
        | none => none
        | some s => some (true, s.resetUpstream)
      | RdOnDataOutcome.throwDecode msg =>
        let s := s.incResponseDecodingError
        match ActiveRpc.onError i msg s with
        | none => none
        | some s => some (true, s.resetUpstream)

/-- Result of one `decoder_->onData(request_buffer_, underflow)` call: the
external frame decoder either returns a status plus the underflow flag, or
throws an `AppException`, or throws a generic `EnvoyException` (decode
error).  A `dispatch` run is driven by a script of these results. -/
inductive DecodeStep
  | ok (status : FilterStatus) (underflow : Bool)
  | appEx (ex : AppExceptionData)
  | decodeErr (msg : String)
deriving DecidableEq

/-- How the try-block of `dispatch` ended. -/
inductive TryOutcome
  | returned
  | threwApp (ex : AppExceptionData)
  | threwDecode (msg : String)
deriving DecidableEq

/-- The try-block loop of `ConnectionManager::dispatch`
(conn_manager.cc:61-71): `while (!underflow)` call the decoder; on
`StopIteration` set `stopped_` and break; on underflow return.  Script
exhaustion stands for an underflow return. -/
def CM.decodeLoop (s : CM) : List DecodeStep → CM × TryOutcome
  | [] => (s, TryOutcome.returned)
  | step :: rest =>
    match step with
    | DecodeStep.ok status underflow =>
      if status = FilterStatus.StopIteration then
        ({ s with stopped := true }, TryOutcome.returned)
      else if underflow then (s, TryOutcome.returned)
      else CM.decodeLoop s rest
    | DecodeStep.appEx ex => (s, TryOutcome.threwApp ex)
    | DecodeStep.decodeErr msg => (s, TryOutcome.threwDecode msg)

/-- `ConnectionManager::dispatch` (conn_manager.cc:55-90).  If stopped,
return.  Run the decode loop; on a normal return, done.  On a caught
`AppException`, send a local reply built from the front RPC's metadata (or
a blank metadata when no RPC exists).  On a caught generic exception, call
`rpcs_.front()->onError(what)` — with no empty-list guard, so an empty
`rpcs_` dereferences the front of an empty list (`none` here).  Both catch
paths then fall through to: bump `request_decoding_error_`, `resetAllRpcs
(local)`, and flush-close the connection. -/
def CM.dispatch (script : List DecodeStep) (s : CM) : Option CM :=
  if s.stopped then some s
  else
    match CM.decodeLoop s script with
    | (s, TryOutcome.returned) => some s
    | (s, TryOutcome.threwApp ex) =>
      let step2 :=
        match s.rpcs with
        | [] => some (CM.sendLocalReply blankMetadata (DirectResponse.appEx ex) s)
        | rpc :: _ =>
          match rpc.metadata with
          | none => none
          | some m => some (CM.sendLocalReply m (DirectResponse.appEx ex) s)
      match step2 with
      | none => none
      | some s => some (CM.closeFlush (CM.resetAllRpcs true (CM.incRequestDecodingError s)))
    | (s, TryOutcome.threwDecode msg) =>
      match s.rpcs with
      | [] => none
      | _ :: _ =>
        match ActiveRpc.onError 0 msg s with
        | none => none
        | some s => some (CM.closeFlush (CM.resetAllRpcs true (CM.incRequestDecodingError s)))

/-- The `end_stream` block of `ConnectionManager::onData`
(conn_manager.cc:31-50): when stopped, inspect the front RPC's message type
(`ASSERT(!rpcs_.empty())`, metadata dereference and `ASSERT
(hasMessageType)` become `none`); if it is `Oneway`, set `half_closed_` and
return `StopIteration` without closing; otherwise `resetAllRpcs(false)` and
flush-close, returning `StopIteration`. -/
def CM.endStreamHandling (s : CM) : Option (CM × FilterStatus) :=
  if s.stopped then
    match s.rpcs with
    | [] => none
    | rpc :: _ =>
      match rpc.metadata with
      | none => none
      | some m =>
        match m.messageType with
        | none => none
        | some mt =>
          if mt = MessageType.Oneway then
            some ({ s with half_closed := true }, FilterStatus.StopIteration)
          else
            some (CM.closeFlush (CM.resetAllRpcs false s), FilterStatus.StopIteration)
  else
    some (CM.closeFlush (CM.resetAllRpcs false s), FilterStatus.StopIteration)

/-- `ConnectionManager::onData` (conn_manager.cc:27-53): move the data into
the request buffer, `dispatch()`, then handle `end_stream`; always returns
`StopIteration` when it returns at all. -/
def CM.onData (script : List DecodeStep) (data : List Nat) (end_stream : Bool)
    (s : CM) : Option (CM × FilterStatus) :=
  match CM.dispatch script { s with request_buffer := s.request_buffer ++ data } with
  | none => none
  | some t =>
    if end_stream then CM.endStreamHandling t
    else some (t, FilterStatus.StopIteration)

/-- `ConnectionManager::continueDecoding` (conn_manager.cc:105-116): clear
`stopped_`, dispatch, and if afterwards not stopped but half-closed, reset
all RPCs and flush-close. -/
def CM.continueDecoding (script : List DecodeStep) (s : CM) : Option CM :=
  match CM.dispatch script { s with stopped := false } with
  | none => none
  | some s =>
    if !s.stopped && s.half_closed then
      some (CM.closeFlush (CM.resetAllRpcs false s))
    else some s

/-- Does the front RPC of `rpcs` carry metadata whose message type is
`Oneway`?  This is the condition the `end_stream` special case of `onData`
actually tests. -/
def CM.frontOneway (s : CM) : Bool :=
  match s.rpcs with
  | [] => false
  | rpc :: _ =>
    match rpc.metadata with
    | none => false
    | some m => decide (m.messageType = some MessageType.Oneway)

/-! ## Helper lemmas -/

/-- Characterization of the fuel-indexed `resetAllRpcs` loop body: with
enough fuel the loop empties `rpcs`, moves every RPC (in list order) to the
deferred-delete queue, and bumps the chosen `cx_destroy` counter once per
RPC, touching nothing else. -/
theorem CM.resetAllRpcsGo_eq (local_reset : Bool) :
    ∀ (fuel : Nat) (s : CM), s.rpcs.length ≤ fuel →
    CM.resetAllRpcsGo local_reset fuel s =
      { s with
        rpcs := []
        deferred := s.deferred ++ s.rpcs
        stats := { s.stats with
          cx_destroy_local_with_active_rq :=
            s.stats.cx_destroy_local_with_active_rq +
              (if local_reset then s.rpcs.length else 0)
          cx_destroy_remote_with_active_rq :=
            s.stats.cx_destroy_remote_with_active_rq +
              (if local_reset then 0 else s.rpcs.length) } } := by
  intro fuel
  induction fuel with
  | zero =>
    intro s h
    have h0 : s.rpcs = [] := List.length_eq_zero.mp (Nat.le_zero.mp h)
    obtain ⟨stats, conn, rpcs, deferred, rb, st, hc, tt, pt, dtt, dpt, ur⟩ := s
    simp only at h0
    subst h0
    simp [CM.resetAllRpcsGo]
  | succ n ih =>
    intro s h
    match hr : s.rpcs with
    | [] =>
      obtain ⟨stats, conn, rpcs, deferred, rb, st, hc, tt, pt, dtt, dpt, ur⟩ := s
      simp only at hr
      subst hr
      simp [CM.resetAllRpcsGo]
    | r :: rest =>
      have hstep :
          CM.doDeferredRpcDestroy 0 (CM.bumpCxDestroy local_reset s) =
          { s with
            rpcs := rest
            deferred := s.deferred ++ [r]
            stats := (CM.bumpCxDestroy local_reset s).stats } := by
        obtain ⟨stats, conn, rpcs, deferred, rb, st, hc, tt, pt, dtt, dpt, ur⟩ := s
        simp only at hr
        subst hr
        cases local_reset <;>
          simp [CM.doDeferredRpcDestroy, CM.bumpCxDestroy]
      have hlen : ({ s with
            rpcs := rest
            deferred := s.deferred ++ [r]
            stats := (CM.bumpCxDestroy local_reset s).stats } : CM).rpcs.length ≤ n := by
        have := h
        simp only [hr, List.length_cons, Nat.succ_le_succ_iff] at this ⊢
        exact this
      have hgo : CM.resetAllRpcsGo local_reset (n + 1) s =
          CM.resetAllRpcsGo local_reset n
            (CM.doDeferredRpcDestroy 0 (CM.bumpCxDestroy local_reset s)) := by
        rw [CM.resetAllRpcsGo]
        split
        · rename_i heq
          rw [hr] at heq
          exact absurd heq (by simp)
        · rfl
      rw [hgo, hstep, ih _ hlen]
      obtain ⟨stats, conn, rpcs, deferred, rb, st, hc, tt, pt, dtt, dpt, ur⟩ := s
      simp only at hr
      subst hr
      cases local_reset <;>
        simp [CM.bumpCxDestroy, Nat.add_assoc, Nat.add_comm 1]

/-- Whole-loop characterization of `resetAllRpcs`. -/
theorem CM.resetAllRpcs_eq (local_reset : Bool) (s : CM) :
    CM.resetAllRpcs local_reset s =
      { s with
        rpcs := []
        deferred := s.deferred ++ s.rpcs
        stats := { s.stats with
          cx_destroy_local_with_active_rq :=
            s.stats.cx_destroy_local_with_active_rq +
              (if local_reset then s.rpcs.length else 0)
          cx_destroy_remote_with_active_rq :=
            s.stats.cx_destroy_remote_with_active_rq +
              (if local_reset then 0 else s.rpcs.length) } } :=
  CM.resetAllRpcsGo_eq local_reset s.rpcs.length s (Nat.le_refl _)

/-- Is metadata present on the front RPC (vacuously true when no RPC
exists)?  This is the side condition under which the catch-AppException arm
of `dispatch` avoids a null-`shared_ptr` dereference. -/
def CM.headMetadataPresent (s : CM) : Bool :=
  match s.rpcs with
  | [] => true
  | rpc :: _ => rpc.metadata.isSome

/-- The metadata the catch-AppException arm of `dispatch` passes to
`sendLocalReply`: the front RPC's metadata when an RPC exists, else a blank
metadata (conn_manager.cc:74-79). -/
def CM.dispatchReplyMeta (s : CM) : MessageMetadata :=
  match s.rpcs with
  | [] => blankMetadata
  | rpc :: _ => rpc.metadata.getD blankMetadata

/-! ## Claim theorems -/

/-- C5 (confirmed, modelled from the spec for the `LinkedObject` list
helpers): `newDecoderEventHandler` appends the freshly created `ActiveRpc`
behind all existing RPCs, so `rpcs` is ordered by arrival with the oldest
at the head; consequently `resetAllRpcs` retires the RPCs oldest-to-newest
(the deferred-delete queue receives them in exactly the `rpcs` order) and
leaves the list empty. -/
theorem rpcs_arrival_order_and_reset_order :
    ∀ (stream_id : Nat) (s : CM) (local_reset : Bool),
      (CM.newDecoderEventHandler stream_id s).2.rpcs = s.rpcs ++ [freshRpc stream_id] ∧
      (CM.resetAllRpcs local_reset s).deferred = s.deferred ++ s.rpcs ∧
      (CM.resetAllRpcs local_reset s).rpcs = [] := by
  intro stream_id s local_reset
  refine ⟨by simp [CM.newDecoderEventHandler, moveIntoList], ?_, ?_⟩ <;>
    rw [CM.resetAllRpcs_eq]

/-- C7 (confirmed): `resetAllRpcs(local_reset)` terminates with `rpcs`
empty (each `onReset` removes the front RPC from the list, which the loop
relies on), every RPC that was in flight lands on the deferred-delete
queue, and the loop bumps `cx_destroy_local_with_active_rq` (when
`local_reset`) or `cx_destroy_remote_with_active_rq` (otherwise) exactly
once per RPC, leaving the other counter and the connection untouched. -/
theorem resetAllRpcs_empties_list_and_counts :
    ∀ (local_reset : Bool) (s : CM),
      (CM.resetAllRpcs local_reset s).rpcs = [] ∧
      (CM.resetAllRpcs local_reset s).stats.cx_destroy_local_with_active_rq =
        s.stats.cx_destroy_local_with_active_rq +
          (if local_reset then s.rpcs.length else 0) ∧
      (CM.resetAllRpcs local_reset s).stats.cx_destroy_remote_with_active_rq =
        s.stats.cx_destroy_remote_with_active_rq +
          (if local_reset then 0 else s.rpcs.length) ∧
      (CM.resetAllRpcs local_reset s).conn = s.conn ∧
      (CM.resetAllRpcs local_reset s).deferred = s.deferred ++ s.rpcs := by
  intro local_reset s
  rw [CM.resetAllRpcs_eq]
  exact ⟨rfl, rfl, rfl, rfl, rfl⟩

/-- C9 (counterexample): `onEvent` on a `Connected` event — not a close
event — still resets the in-flight RPC: the list is emptied and
`cx_destroy_remote_with_active_rq` is bumped, contradicting the claim that
a non-close connection event leaves the rpcs list unchanged. -/
theorem onEvent_connected_resets_rpcs :
    ((CM.onEvent ConnectionEvent.Connected
        { rpcs := [freshRpc 2] }).rpcs,
     (CM.onEvent ConnectionEvent.Connected
        { rpcs := [freshRpc 2] }).stats.cx_destroy_remote_with_active_rq)
      = ([], 1) := by decide

/-- C9 (amended): `onEvent` resets all in-flight RPCs on every connection
event, close or not; the event only determines which `cx_destroy` counter
is bumped (`cx_destroy_local_with_active_rq` exactly when the event is
`LocalClose`, else `cx_destroy_remote_with_active_rq`), and the connection
itself is left untouched. -/
theorem onEvent_resets_on_every_event :
    ∀ (event : ConnectionEvent) (s : CM),
      (CM.onEvent event s).rpcs = [] ∧
      (CM.onEvent event s).conn = s.conn ∧
      (CM.onEvent event s).stats.cx_destroy_local_with_active_rq =
        s.stats.cx_destroy_local_with_active_rq +
          (if event = ConnectionEvent.LocalClose then s.rpcs.length else 0) ∧
      (CM.onEvent event s).stats.cx_destroy_remote_with_active_rq =
        s.stats.cx_destroy_remote_with_active_rq +
          (if event = ConnectionEvent.LocalClose then 0 else s.rpcs.length) := by
  intro event s
  unfold CM.onEvent
  rw [CM.resetAllRpcs_eq]
  refine ⟨rfl, rfl, ?_, ?_⟩ <;> simp

/-- C4 (code_bug): a generic decode error caught by `dispatch` while no
RPC is in flight makes the error branch call `rpcs_.front()->onError` on an
empty list — undefined behavior in the C++, `none` in the model — instead
of the guarded "if rpcs not empty" behavior the claim (and the spec's
dispatch pseudocode) describes. -/
theorem dispatch_decodeError_empty_rpcs_ub :
    CM.dispatch [DecodeStep.decodeErr "invalid frame size"] ({} : CM) = none := by
  decide

/-- C1 (counterexample): `dispatch` catching an `AppException` (here with
no RPC in flight) does send the local reply, but then falls through to the
shared teardown: the connection ends flush-closed and
`request_decoding_error` is incremented — contradicting the claim that the
connection stays open and the counter is untouched. -/
theorem dispatch_appException_closes_connection :
    (CM.dispatch [DecodeStep.appEx
        { type := AppExceptionType.ProtocolError, what := "bad" }] ({} : CM)).map
      (fun t => (t.conn.closed, t.stats.request_decoding_error, t.conn.writes.length))
      = some (some CloseType.FlushWrite, 1, 1) := by decide

/-- C1 (amended): when `dispatch` catches an `AppException` from the
decoder, it sends a local reply built from the front RPC's metadata if any
RPC exists (else a blank metadata) — and then falls through to the same
teardown as the decode-error path: `request_decoding_error` is
incremented, all RPCs are reset with local-close semantics, and the
downstream connection is closed with flush. -/
theorem dispatch_appException_reply_then_teardown
    (s : CM) (script : List DecodeStep) (ex : AppExceptionData)
    (hstop : s.stopped = false)
    (hloop : CM.decodeLoop s script = (s, TryOutcome.threwApp ex))
    (hmeta : CM.headMetadataPresent s = true) :
    (CM.dispatch script s).isSome = true ∧
    ∀ t, CM.dispatch script s = some t →
      t.conn.writes = s.conn.writes ++
        [{ transport := s.transportType
           metadata := { CM.dispatchReplyMeta s with protocol := some s.protocolType }
           body := FrameBody.direct (DirectResponse.appEx ex) }] ∧
      t.conn.closed = some CloseType.FlushWrite ∧
      t.stats.request_decoding_error = s.stats.request_decoding_error + 1 ∧
      t.rpcs = [] ∧
      t.stats.cx_destroy_local_with_active_rq =
        s.stats.cx_destroy_local_with_active_rq + s.rpcs.length := by
  have hd : CM.dispatch script s =
      some (CM.closeFlush (CM.resetAllRpcs true (CM.incRequestDecodingError
        (CM.sendLocalReply (CM.dispatchReplyMeta s)
          (DirectResponse.appEx ex) s)))) := by
    unfold CM.dispatch
    rw [hstop, hloop]
    simp only [Bool.false_eq_true, if_false]
    match hr : s.rpcs with
    | [] =>
      simp [CM.dispatchReplyMeta, hr, blankMetadata]
    | rpc :: rest =>
      rw [CM.headMetadataPresent, hr] at hmeta
      obtain ⟨m, hm⟩ := Option.isSome_iff_exists.mp hmeta
      simp [CM.dispatchReplyMeta, hr, hm]
  refine ⟨by rw [hd]; rfl, ?_⟩
  intro t ht
  rw [hd] at ht
  obtain rfl : _ = t := Option.some.inj ht
  rw [CM.closeFlush, CM.resetAllRpcs_eq]
  refine ⟨?_, rfl, rfl, rfl, ?_⟩
  · simp [CM.incRequestDecodingError, CM.sendLocalReply, CM.writeFrame]
  · simp [CM.incRequestDecodingError, CM.sendLocalReply, CM.writeFrame]

/-- C1 witness: a concrete run of `dispatch` through the amended theorem —
no RPC in flight, the decoder throws `AppException(ProtocolError)`; the
blank-metadata reply is written and the connection is torn down. -/
theorem dispatch_appException_teardown_witness :
    (({} : CM).stopped = false ∧
     CM.decodeLoop ({} : CM)
        [DecodeStep.appEx { type := AppExceptionType.ProtocolError, what := "bad" }] =
        ({} , TryOutcome.threwApp { type := AppExceptionType.ProtocolError, what := "bad" }) ∧
     CM.headMetadataPresent ({} : CM) = true) ∧
    (CM.dispatch
        [DecodeStep.appEx { type := AppExceptionType.ProtocolError, what := "bad" }]
        ({} : CM)).isSome = true := by
  refine ⟨⟨by decide, by decide, by decide⟩, ?_⟩
  exact (dispatch_appException_reply_then_teardown ({} : CM)
    [DecodeStep.appEx { type := AppExceptionType.ProtocolError, what := "bad" }]
    { type := AppExceptionType.ProtocolError, what := "bad" }
    (by decide) (by decide) (by decide)).1

/-- Metadata of a Oneway request (fixture for concrete runs). -/
def onewayMeta : MessageMetadata :=
  { messageType := some MessageType.Oneway, sequenceId := some 4 }

/-- Metadata of a Call request (fixture for concrete runs). -/
def callMeta : MessageMetadata :=
  { messageType := some MessageType.Call, sequenceId := some 5 }

/-- An in-flight Oneway RPC (fixture for concrete runs). -/
def onewayRpc : ActiveRpc := { freshRpc 1 with metadata := some onewayMeta }

/-- An in-flight Call RPC (fixture for concrete runs). -/
def callRpc : ActiveRpc := { freshRpc 2 with metadata := some callMeta }

/-- The `end_stream` block of `onData` can only produce `StopIteration`. -/
theorem CM.endStreamHandling_snd (s : CM) (out : CM × FilterStatus)
    (h : CM.endStreamHandling s = some out) : out.2 = FilterStatus.StopIteration := by
  unfold CM.endStreamHandling at h
  repeat' split at h
  all_goals simp_all
  all_goals rw [← h]

/-- C3 (counterexample): `onData` with `end_stream` while the manager is
stopped with TWO in-flight RPCs (the front one a Oneway) still sets
`half_closed` and returns `StopIteration` without closing — the code only
inspects the front RPC's message type, contradicting the claim that this
happens exactly when there is a single in-flight Oneway RPC. -/
theorem onData_halfclose_with_two_rpcs :
    (CM.onData [] [] true { stopped := true, rpcs := [onewayRpc, callRpc] }).map
      (fun p => (p.1.half_closed, p.1.conn.closed, p.1.rpcs.length, p.2))
      = some (true, none, 2, FilterStatus.StopIteration) := by decide

/-- C3 (amended): `onData` returns `StopIteration` whenever it returns;
its `end_stream` handling sets `half_closed` and returns without closing
exactly when the manager is stopped and the FRONT in-flight RPC's message
type is `Oneway` (regardless of how many RPCs are in flight); in every
other successful `end_stream` case it resets all RPCs with remote-close
semantics and closes the connection with flush. -/
theorem onData_end_stream_characterization (s : CM) :
    (∀ (script : List DecodeStep) (data : List Nat) (es : Bool) (out : CM × FilterStatus),
      CM.onData script data es s = some out → out.2 = FilterStatus.StopIteration) ∧
    (∀ out : CM × FilterStatus,
      CM.endStreamHandling s = some out →
      out.2 = FilterStatus.StopIteration ∧
      (if s.stopped && CM.frontOneway s then
        out.1.conn.closed = s.conn.closed ∧ out.1.half_closed = true ∧
          out.1.rpcs = s.rpcs
       else
        out.1.conn.closed = some CloseType.FlushWrite ∧ out.1.rpcs = [] ∧
          out.1.stats.cx_destroy_remote_with_active_rq =
            s.stats.cx_destroy_remote_with_active_rq + s.rpcs.length ∧
          out.1.stats.cx_destroy_local_with_active_rq =
            s.stats.cx_destroy_local_with_active_rq)) := by
  constructor
  · intro script data es out h
    unfold CM.onData at h
    rcases hq : CM.dispatch script { s with request_buffer := s.request_buffer ++ data } with _ | s₁
    · simp [hq] at h
    · simp only [hq] at h
      by_cases hes : es = true
      · rw [hes] at h
        simp only [if_true] at h
        exact CM.endStreamHandling_snd s₁ out h
      · rw [Bool.not_eq_true] at hes
        rw [hes] at h
        simp only [Bool.false_eq_true, if_false, Option.some.injEq] at h
        rw [← h]
  · intro out h
    refine ⟨CM.endStreamHandling_snd s out h, ?_⟩
    unfold CM.endStreamHandling at h
    by_cases hs : s.stopped = true
    · rw [hs] at h
      simp only [if_true] at h
      match hr : s.rpcs with
      | [] => simp [hr] at h
      | rpc :: rest =>
        simp only [hr] at h
        match hm : rpc.metadata with
        | none => simp [hm] at h
        | some m =>
          simp only [hm] at h
          match hmt : m.messageType with
          | none => simp [hmt] at h
          | some mt =>
            simp only [hmt] at h
            by_cases ho : mt = MessageType.Oneway
            · have hfo : CM.frontOneway s = true := by
                simp [CM.frontOneway, hr, hm, hmt, ho]
              rw [if_pos ho] at h
              obtain rfl : _ = out := Option.some.inj h
              rw [hs, hfo]
              simp [hr]
            · have hfo : CM.frontOneway s = false := by
                simp [CM.frontOneway, hr, hm, hmt, ho]
              rw [if_neg ho] at h
              obtain rfl : _ = out := Option.some.inj h
              rw [hs, hfo]
              simp only [Bool.and_false, Bool.false_eq_true, if_false]
              rw [CM.closeFlush, CM.resetAllRpcs_eq]
              refine ⟨rfl, rfl, by simp [hr], by simp [hr]⟩
    · rw [Bool.not_eq_true] at hs
      rw [hs] at h
      simp only [Bool.false_eq_true, if_false] at h
      obtain rfl : _ = out := Option.some.inj h
      rw [hs]
      simp only [Bool.false_and, Bool.false_eq_true, if_false]
      rw [CM.closeFlush, CM.resetAllRpcs_eq]
      refine ⟨rfl, rfl, by simp, by simp⟩

/-- Concrete state for the C3 witness: stopped with a single in-flight
Oneway RPC. -/
def c3WitState : CM := { stopped := true, rpcs := [onewayRpc] }

/-- The output of the C3 witness run. -/
def c3WitOut : CM × FilterStatus :=
  (CM.endStreamHandling c3WitState).getD ({}, FilterStatus.Continue)

/-- C3 witness: the amended characterization applied to a concrete stopped
manager whose front RPC is a Oneway. -/
theorem onData_end_stream_witness :
    CM.onData [] [] true c3WitState = some c3WitOut ∧
    c3WitOut.2 = FilterStatus.StopIteration ∧
    CM.endStreamHandling c3WitState = some c3WitOut ∧
    (if c3WitState.stopped && CM.frontOneway c3WitState then
       c3WitOut.1.conn.closed = c3WitState.conn.closed ∧ c3WitOut.1.half_closed = true ∧
         c3WitOut.1.rpcs = c3WitState.rpcs
     else
       c3WitOut.1.conn.closed = some CloseType.FlushWrite ∧ c3WitOut.1.rpcs = [] ∧
         c3WitOut.1.stats.cx_destroy_remote_with_active_rq =
           c3WitState.stats.cx_destroy_remote_with_active_rq + c3WitState.rpcs.length ∧
         c3WitOut.1.stats.cx_destroy_local_with_active_rq =
           c3WitState.stats.cx_destroy_local_with_active_rq) := by
  refine ⟨by decide, ?_, by decide, ?_⟩
  · exact (onData_end_stream_characterization c3WitState).1 [] [] true c3WitOut (by decide)
  · exact ((onData_end_stream_characterization c3WitState).2 c3WitOut (by decide)).2

/-- `fieldBegin` never touches the decoder's stored metadata. -/
theorem ResponseDecoder.fieldBegin_metadata (name : String) (t : FieldType)
    (id : Int) (rd : ResponseDecoder) :
    (ResponseDecoder.fieldBegin name t id rd).metadata = rd.metadata := by
  simp only [ResponseDecoder.fieldBegin]
  split <;> rfl

/-- `doDeferredRpcDestroy` never touches the connection. -/
theorem CM.doDeferredRpcDestroy_conn (i : Nat) (s : CM) :
    (CM.doDeferredRpcDestroy i s).conn = s.conn := by
  unfold CM.doDeferredRpcDestroy
  split <;> rfl

/-- What a successful `transportEnd` does to the decoder metadata and the
write log: it emits exactly one frame, built from the stored metadata with
the protocol set to the downstream decoder's protocol type. -/
theorem ResponseDecoder.transportEnd_spec (rd rd₁ : ResponseDecoder) (s s₁ : CM)
    (h : ResponseDecoder.transportEnd rd s = some (rd₁, s₁)) :
    ∃ m, rd.metadata = some m ∧
      rd₁.metadata = some { m with protocol := some s.decoderProtocolType } ∧
      s₁.conn.writes = s.conn.writes ++
        [{ transport := s.decoderTransportType
           metadata := { m with protocol := some s.decoderProtocolType }
           body := FrameBody.converted rd.response_buffer }] := by
  match hm : rd.metadata with
  | none => simp [ResponseDecoder.transportEnd, hm] at h
  | some m =>
    match hmt : m.messageType with
    | none => simp [ResponseDecoder.transportEnd, hm, hmt] at h
    | some mt =>
      simp only [ResponseDecoder.transportEnd, hm, hmt, Option.some.injEq,
        Prod.mk.injEq] at h
      obtain ⟨hrd, hs⟩ := h
      refine ⟨m, rfl, ?_, ?_⟩
      · rw [← hrd]
        simp [hmt]
      · rw [← hs]
        cases mt with
        | Reply =>
          by_cases hsucc : rd.success.getD false = true <;>
            simp [CM.writeFrame, hmt, hsucc]
        | Call => simp [CM.writeFrame, hmt]
        | Exception => simp [CM.writeFrame, hmt]
        | Oneway => simp [CM.writeFrame, hmt]

/-- Invariant: once the response decoder has stored metadata, that metadata
carries the parent RPC's original sequence id. -/
def seqIdRestored (original_sequence_id : Int) (rd : ResponseDecoder) : Prop :=
  ∀ m, rd.metadata = some m → m.sequenceId = some original_sequence_id

/-- One upstream decoder event preserves the sequence-id invariant and
either leaves the write log alone or appends one frame whose sequence id is
the original one. -/
theorem rdStep_seqId (oid : Int) (e : UpstreamEvent) (rd rd₁ : ResponseDecoder)
    (s s₁ : CM) (hstep : rdStep oid e rd s = some (rd₁, s₁))
    (hinv : seqIdRestored oid rd) :
    seqIdRestored oid rd₁ ∧
      (s₁.conn.writes = s.conn.writes ∨
        ∃ f, s₁.conn.writes = s.conn.writes ++ [f] ∧
          f.metadata.sequenceId = some oid) := by
  cases e with
  | messageBegin m =>
    simp only [rdStep, Option.some.injEq, Prod.mk.injEq] at hstep
    obtain ⟨hrd, hs⟩ := hstep
    constructor
    · intro m₁ hm₁
      rw [← hrd] at hm₁
      simp only [ResponseDecoder.messageBegin, Option.some.injEq] at hm₁
      rw [← hm₁]
    · left
      rw [← hs]
  | fieldBegin name t id =>
    simp only [rdStep, Option.some.injEq, Prod.mk.injEq] at hstep
    obtain ⟨hrd, hs⟩ := hstep
    constructor
    · intro m₁ hm₁
      rw [← hrd, ResponseDecoder.fieldBegin_metadata] at hm₁
      exact hinv m₁ hm₁
    · left
      rw [← hs]
  | passthrough tag =>
    simp only [rdStep, Option.some.injEq, Prod.mk.injEq] at hstep
    obtain ⟨hrd, hs⟩ := hstep
    constructor
    · intro m₁ hm₁
      rw [← hrd] at hm₁
      exact hinv m₁ hm₁
    · left
      rw [← hs]
  | transportEnd =>
    obtain ⟨m, hm, hmeta, hw⟩ := ResponseDecoder.transportEnd_spec rd rd₁ s s₁ hstep
    have hseq : m.sequenceId = some oid := hinv m hm
    constructor
    · intro m₁ hm₁
      rw [hmeta] at hm₁
      obtain rfl := Option.some.inj hm₁
      exact hseq
    · right
      exact ⟨_, hw, hseq⟩

/-- Every frame the `ResponseDecoder` adds to the write log over any event
sequence carries the original sequence id (as long as the invariant held on
entry). -/
theorem runResponseDecoder_seqId (oid : Int) :
    ∀ (evs : List UpstreamEvent) (rd : ResponseDecoder) (s : CM)
      (out : ResponseDecoder × CM),
      runResponseDecoder oid evs rd s = some out →
      seqIdRestored oid rd →
      ∀ f ∈ out.2.conn.writes,
        f ∈ s.conn.writes ∨ f.metadata.sequenceId = some oid := by
  intro evs
  induction evs with
  | nil =>
    intro rd s out h hinv f hf
    simp only [runResponseDecoder, Option.some.injEq] at h
    rw [← h] at hf
    exact Or.inl hf
  | cons e evs ih =>
    intro rd s out h hinv f hf
    simp only [runResponseDecoder] at h
    rcases hstep : rdStep oid e rd s with _ | p
    · simp [hstep] at h
    · simp only [hstep] at h
      obtain ⟨rd₁, s₁⟩ := p
      obtain ⟨hinv₁, hw⟩ := rdStep_seqId oid e rd rd₁ s s₁ hstep hinv
      rcases ih rd₁ s₁ out h hinv₁ f hf with hmem | hgood
      · rcases hw with heq | ⟨g, hg, hgseq⟩
        · left
          rw [heq] at hmem
          exact hmem
        · rw [hg] at hmem
          rcases List.mem_append.mp hmem with h1 | h2
          · left
            exact h1
          · right
            have hfg : f = g := by simpa using h2
            rw [hfg]
            exact hgseq
      · right
        exact hgood

/-- C2 (confirmed): every reply frame written downstream for a request
carries the request's `original_sequence_id` — both frames re-encoded from
an upstream response by the `ResponseDecoder` (whatever sequence id the
upstream used) and local replies produced via `ActiveRpc::sendLocalReply`. -/
theorem reply_sequence_id_matches_original :
    (∀ (original_sequence_id : Int) (evs : List UpstreamEvent) (s : CM)
       (out : ResponseDecoder × CM),
       runResponseDecoder original_sequence_id evs freshResponseDecoder s = some out →
       ∀ f ∈ out.2.conn.writes,
         f ∈ s.conn.writes ∨ f.metadata.sequenceId = some original_sequence_id) ∧
    (∀ (i : Nat) (resp : DirectResponse) (s s₁ : CM) (rpc : ActiveRpc)
       (m : MessageMetadata),
       s.rpcs[i]? = some rpc → rpc.metadata = some m →
       ActiveRpc.sendLocalReplyAt i resp s = some s₁ →
       s₁.conn.writes = s.conn.writes ++
         [{ transport := s.transportType
            metadata := { m with
                          sequenceId := some rpc.original_sequence_id
                          protocol := some s.protocolType }
            body := FrameBody.direct resp }] ∧
       (some rpc.original_sequence_id : Option Int) =
         ({ m with
            sequenceId := some rpc.original_sequence_id
            protocol := some s.protocolType } : MessageMetadata).sequenceId) := by
  constructor
  · intro oid evs s out h f hf
    refine runResponseDecoder_seqId oid evs freshResponseDecoder s out h ?_ f hf
    intro m hm
    simp [freshResponseDecoder] at hm
  · intro i resp s s₁ rpc m hrpc hm h
    simp only [ActiveRpc.sendLocalReplyAt, hrpc, hm, Option.some.injEq] at h
    rw [← h, CM.doDeferredRpcDestroy_conn]
    simp [CM.sendLocalReply, CM.writeFrame]

/-- Upstream reply metadata carrying a rewritten (wrong) sequence id 99. -/
def c2UpstreamMeta : MessageMetadata :=
  { messageType := some MessageType.Reply, sequenceId := some 99 }

/-- Upstream events of a complete reply frame (fixture). -/
def c2Evs : List UpstreamEvent :=
  [UpstreamEvent.messageBegin c2UpstreamMeta,
   UpstreamEvent.fieldBegin "" FieldType.I32 0,
   UpstreamEvent.transportEnd]

/-- Result of running the response decoder over `c2Evs` with original
sequence id 7. -/
def c2Out : ResponseDecoder × CM :=
  (runResponseDecoder 7 c2Evs freshResponseDecoder {}).getD (freshResponseDecoder, {})

/-- The frame the `c2Evs` run wrote downstream. -/
def c2Frame : Frame :=
  c2Out.2.conn.writes.headD
    { transport := TransportType.Framed
      metadata := {}
      body := FrameBody.direct (DirectResponse.appEx
        { type := AppExceptionType.Unknown, what := "" }) }

/-- An RPC whose recorded original sequence id (42) differs from its
current metadata sequence id (fixture for the local-reply arm). -/
def c2LocalRpc : ActiveRpc :=
  { freshRpc 6 with metadata := some callMeta, original_sequence_id := 42 }

/-- Manager state holding `c2LocalRpc` (fixture). -/
def c2LocalState : CM := { rpcs := [c2LocalRpc] }

/-- The local reply sent in the C2 witness. -/
def c2LocalResp : DirectResponse :=
  DirectResponse.appEx { type := AppExceptionType.InternalError, what := "err" }

/-- Resulting state of the local-reply arm of the C2 witness. -/
def c2LocalOut : CM :=
  (ActiveRpc.sendLocalReplyAt 0 c2LocalResp c2LocalState).getD {}

/-- C2 witness: a concrete upstream reply with sequence id 99 is re-framed
with the original id 7, and a concrete local reply restores the recorded
original id 42. -/
theorem reply_sequence_id_witness :
    (runResponseDecoder 7 c2Evs freshResponseDecoder {} = some c2Out ∧
     c2Frame ∈ c2Out.2.conn.writes ∧
     (c2Frame ∈ ({} : CM).conn.writes ∨ c2Frame.metadata.sequenceId = some 7)) ∧
    (c2LocalState.rpcs[0]? = some c2LocalRpc ∧
     c2LocalRpc.metadata = some callMeta ∧
     ActiveRpc.sendLocalReplyAt 0 c2LocalResp c2LocalState = some c2LocalOut ∧
     (c2LocalOut.conn.writes = c2LocalState.conn.writes ++
        [{ transport := c2LocalState.transportType
           metadata := { callMeta with
                         sequenceId := some c2LocalRpc.original_sequence_id
                         protocol := some c2LocalState.protocolType }
           body := FrameBody.direct c2LocalResp }] ∧
      (some c2LocalRpc.original_sequence_id : Option Int) =
        ({ callMeta with
           sequenceId := some c2LocalRpc.original_sequence_id
           protocol := some c2LocalState.protocolType } : MessageMetadata).sequenceId)) := by
  refine ⟨⟨by decide, by decide, ?_⟩, by decide, by decide, by decide, ?_⟩
  · exact (reply_sequence_id_matches_original).1 7 c2Evs {} c2Out (by decide)
      c2Frame (by decide)
  · exact (reply_sequence_id_matches_original).2 0 c2LocalResp c2LocalState
      c2LocalOut c2LocalRpc callMeta (by decide) (by decide) (by decide)

/-- C6 (confirmed): after `messageBegin` of a `Reply`, `first_reply_field`
is set, and the first `fieldBegin` classifies the reply — `success = (id ==
0 && type != Stop)` — and clears the flag; a successful `transportEnd` of a
`Reply` bumps `response` and `response_reply`, and bumps `response_success`
iff `success` is present and true, else `response_error`. -/
theorem response_reply_classification :
    (∀ (oid : Int) (meta : MessageMetadata) (rd : ResponseDecoder)
       (name : String) (t : FieldType) (id : Int),
       meta.messageType = some MessageType.Reply →
       (ResponseDecoder.messageBegin oid meta rd).first_reply_field = true ∧
       (ResponseDecoder.fieldBegin name t id
          (ResponseDecoder.messageBegin oid meta rd)).success =
         some ((id == 0) && !(t == FieldType.Stop)) ∧
       (ResponseDecoder.fieldBegin name t id
          (ResponseDecoder.messageBegin oid meta rd)).first_reply_field = false) ∧
    (∀ (rd rd₁ : ResponseDecoder) (s s₁ : CM) (m : MessageMetadata),
       rd.metadata = some m → m.messageType = some MessageType.Reply →
       ResponseDecoder.transportEnd rd s = some (rd₁, s₁) →
       s₁.stats.response = s.stats.response + 1 ∧
       s₁.stats.response_reply = s.stats.response_reply + 1 ∧
       (rd.success = some true →
         s₁.stats.response_success = s.stats.response_success + 1 ∧
         s₁.stats.response_error = s.stats.response_error) ∧
       (rd.success ≠ some true →
         s₁.stats.response_error = s.stats.response_error + 1 ∧
         s₁.stats.response_success = s.stats.response_success)) := by
  constructor
  · intro oid meta rd name t id hmt
    refine ⟨?_, ?_, ?_⟩ <;>
      simp [ResponseDecoder.messageBegin, ResponseDecoder.fieldBegin, hmt]
  · intro rd rd₁ s s₁ m hm hmt htr
    simp only [ResponseDecoder.transportEnd, hm, hmt, Option.some.injEq,
      Prod.mk.injEq] at htr
    obtain ⟨hrd, hs⟩ := htr
    by_cases hst : rd.success = some true
    · have hg : rd.success.getD false = true := by rw [hst]; rfl
      rw [← hs]
      simp [CM.writeFrame, hg, hst]
    · have hg : rd.success.getD false = false := by
        cases hsv : rd.success with
        | none => rfl
        | some b =>
          cases b with
          | false => rfl
          | true => exact absurd hsv hst
      rw [← hs]
      simp [CM.writeFrame, hg, hst]

/-- Response decoder state just before `transportEnd` of a successful reply
(fixture for the C6 witness). -/
def c6Rd : ResponseDecoder :=
  { metadata := some c2UpstreamMeta
    first_reply_field := false
    success := some true
    complete := false
    response_buffer := [] }

/-- Output of `transportEnd` on `c6Rd` (fixture for the C6 witness). -/
def c6Out : ResponseDecoder × CM :=
  (ResponseDecoder.transportEnd c6Rd {}).getD (freshResponseDecoder, {})

/-- C6 witness: the classification theorem applied to a concrete reply
whose first field has id 0 and a non-Stop type, and to a concrete
`transportEnd` with `success = some true`. -/
theorem response_reply_classification_witness :
    (c2UpstreamMeta.messageType = some MessageType.Reply ∧
     (ResponseDecoder.messageBegin 7 c2UpstreamMeta freshResponseDecoder).first_reply_field
       = true ∧
     (ResponseDecoder.fieldBegin "" FieldType.I32 0
        (ResponseDecoder.messageBegin 7 c2UpstreamMeta freshResponseDecoder)).success =
       some (((0 : Int) == 0) && !(FieldType.I32 == FieldType.Stop)) ∧
     (ResponseDecoder.fieldBegin "" FieldType.I32 0
        (ResponseDecoder.messageBegin 7 c2UpstreamMeta freshResponseDecoder)).first_reply_field
       = false) ∧
    (c6Rd.metadata = some c2UpstreamMeta ∧
     ResponseDecoder.transportEnd c6Rd {} = some (c6Out.1, c6Out.2) ∧
     c6Out.2.stats.response = ({} : CM).stats.response + 1 ∧
     c6Out.2.stats.response_reply = ({} : CM).stats.response_reply + 1 ∧
     (c6Rd.success = some true →
       c6Out.2.stats.response_success = ({} : CM).stats.response_success + 1 ∧
       c6Out.2.stats.response_error = ({} : CM).stats.response_error) ∧
     (c6Rd.success ≠ some true →
       c6Out.2.stats.response_error = ({} : CM).stats.response_error + 1 ∧
       c6Out.2.stats.response_success = ({} : CM).stats.response_success)) := by
  have h1 := response_reply_classification.1 7 c2UpstreamMeta freshResponseDecoder
    "" FieldType.I32 0 (by decide)
  have h2 := response_reply_classification.2 c6Rd c6Out.1 {} c6Out.2
    c2UpstreamMeta (by decide) (by decide) (by decide)
  exact ⟨⟨by decide, h1.1, h1.2.1, h1.2.2⟩, by decide, by decide, h2.1, h2.2.1,
    h2.2.2.1, h2.2.2.2⟩

/-- C8 (confirmed): `route()` is memoized over the tri-state cache: a
resolved cache (route or no-route) is returned untouched with zero router
consultations (whatever router is supplied); an unresolved cache with
metadata consults the router exactly once and caches the result; and a
first call resolving to no route caches resolved-to-None, so a later call
recomputes nothing. -/
theorem route_memoization :
    (∀ (router : MessageMetadata → Nat → Option Route) (rpc : ActiveRpc)
       (v : Option Route), rpc.cached_route = some v →
       ActiveRpc.route router rpc = (v, rpc, 0)) ∧
    (∀ (router : MessageMetadata → Nat → Option Route) (rpc : ActiveRpc)
       (m : MessageMetadata), rpc.cached_route = none → rpc.metadata = some m →
       ActiveRpc.route router rpc =
         (router m rpc.stream_id,
          { rpc with cached_route := some (router m rpc.stream_id) }, 1)) ∧
    (∀ (router router₂ : MessageMetadata → Nat → Option Route) (rpc : ActiveRpc)
       (m : MessageMetadata), rpc.cached_route = none → rpc.metadata = some m →
       router m rpc.stream_id = none →
       ActiveRpc.route router₂ (ActiveRpc.route router rpc).2.1 =
         (none, (ActiveRpc.route router rpc).2.1, 0)) := by
  refine ⟨?_, ?_, ?_⟩
  · intro router rpc v h
    simp [ActiveRpc.route, h]
  · intro router rpc m h1 h2
    simp [ActiveRpc.route, h1, h2]
  · intro router router₂ rpc m h1 h2 h3
    have e : ActiveRpc.route router rpc =
        (none, { rpc with cached_route := some none }, 1) := by
      simp [ActiveRpc.route, h1, h2, h3]
    rw [e]
    simp [ActiveRpc.route]

/-- A router that always resolves to route 5 (fixture). -/
def c8Router : MessageMetadata → Nat → Option Route := fun _ _ => some 5

/-- A router that never resolves (fixture). -/
def c8NoneRouter : MessageMetadata → Nat → Option Route := fun _ _ => none

/-- An RPC whose route cache is already resolved to route 3 (fixture). -/
def c8CachedRpc : ActiveRpc := { freshRpc 11 with cached_route := some (some 3) }

/-- An RPC with metadata and an unresolved route cache (fixture). -/
def c8FreshRpc : ActiveRpc := { freshRpc 12 with metadata := some callMeta }

/-- C8 witness: the memoization theorem applied to concrete routers and
RPCs — a resolved cache short-circuits, a fresh cache consults the router
once, and a resolved-None cache is never recomputed. -/
theorem route_memoization_witness :
    (c8CachedRpc.cached_route = some (some 3) ∧
     ActiveRpc.route c8Router c8CachedRpc = (some 3, c8CachedRpc, 0)) ∧
    (c8FreshRpc.cached_route = none ∧ c8FreshRpc.metadata = some callMeta ∧
     ActiveRpc.route c8Router c8FreshRpc =
       (c8Router callMeta c8FreshRpc.stream_id,
        { c8FreshRpc with cached_route := some (c8Router callMeta c8FreshRpc.stream_id) },
        1)) ∧
    (c8NoneRouter callMeta c8FreshRpc.stream_id = none ∧
     ActiveRpc.route c8Router (ActiveRpc.route c8NoneRouter c8FreshRpc).2.1 =
       (none, (ActiveRpc.route c8NoneRouter c8FreshRpc).2.1, 0)) := by
  refine ⟨⟨by decide, ?_⟩, ⟨by decide, by decide, ?_⟩, ⟨rfl, ?_⟩⟩
  · exact route_memoization.1 c8Router c8CachedRpc (some 3) (by decide)
  · exact route_memoization.2.1 c8Router c8FreshRpc callMeta (by decide) (by decide)
  · exact route_memoization.2.2 c8NoneRouter c8Router c8FreshRpc callMeta
      (by decide) (by decide) rfl

/-- `doDeferredRpcDestroy` never touches the stats counters. -/
theorem CM.doDeferredRpcDestroy_stats (i : Nat) (s : CM) :
    (CM.doDeferredRpcDestroy i s).stats = s.stats := by
  unfold CM.doDeferredRpcDestroy
  split <;> rfl

/-- `doDeferredRpcDestroy` never touches the upstream-reset count. -/
theorem CM.doDeferredRpcDestroy_upstream (i : Nat) (s : CM) :
    (CM.doDeferredRpcDestroy i s).upstream_resets = s.upstream_resets := by
  unfold CM.doDeferredRpcDestroy
  split <;> rfl

/-- C10 (confirmed): on both exception paths of `upstreamData` — the inner
response decoder throwing an `AppException` or a generic decode error — the
call returns true (response finished), bumps `response_decoding_error`
exactly once, and resets the upstream connection through the decoder
filter, even though the response was never fully decoded. -/
theorem upstreamData_exception_paths_return_true :
    ∀ (i : Nat) (s : CM) (rpc : ActiveRpc) (rd : ResponseDecoder)
      (m : MessageMetadata) (ex : AppExceptionData) (msg : String),
      s.rpcs[i]? = some rpc →
      rpc.response_decoder = some rd →
      rpc.metadata = some m →
      ((ActiveRpc.upstreamData i (RdOnDataOutcome.throwApp ex) s).map
          (fun p => (p.1, p.2.stats.response_decoding_error, p.2.upstream_resets))
        = some (true, s.stats.response_decoding_error + 1, s.upstream_resets + 1)) ∧
      ((ActiveRpc.upstreamData i (RdOnDataOutcome.throwDecode msg) s).map
          (fun p => (p.1, p.2.stats.response_decoding_error, p.2.upstream_resets))
        = some (true, s.stats.response_decoding_error + 1, s.upstream_resets + 1)) := by
  intro i s rpc rd m ex msg hrpc hrd hm
  constructor
  · simp [ActiveRpc.upstreamData, hrpc, hrd, ActiveRpc.sendLocalReplyAt,
      CM.incResponseDecodingError, CM.sendLocalReply, CM.writeFrame,
      CM.resetUpstream, CM.doDeferredRpcDestroy_stats,
      CM.doDeferredRpcDestroy_upstream, hm]
  · simp [ActiveRpc.upstreamData, hrpc, hrd, ActiveRpc.onError,
      ActiveRpc.sendLocalReplyAt, CM.incResponseDecodingError,
      CM.sendLocalReply, CM.writeFrame, CM.resetUpstream,
      CM.doDeferredRpcDestroy_stats, CM.doDeferredRpcDestroy_upstream, hm]

/-- An RPC with metadata and a live response decoder (fixture for C10). -/
def c10Rpc : ActiveRpc :=
  { freshRpc 8 with metadata := some callMeta
                    response_decoder := some freshResponseDecoder }

/-- Manager state holding `c10Rpc` (fixture for C10). -/
def c10State : CM := { rpcs := [c10Rpc] }

/-- C10 witness: both exception outcomes evaluated on a concrete in-flight
RPC with a live response decoder. -/
theorem upstreamData_exception_paths_witness :
    (c10State.rpcs[0]? = some c10Rpc ∧
     c10Rpc.response_decoder = some freshResponseDecoder ∧
     c10Rpc.metadata = some callMeta) ∧
    ((ActiveRpc.upstreamData 0
        (RdOnDataOutcome.throwApp { type := AppExceptionType.ProtocolError, what := "u" })
        c10State).map
        (fun p => (p.1, p.2.stats.response_decoding_error, p.2.upstream_resets))
      = some (true, c10State.stats.response_decoding_error + 1,
              c10State.upstream_resets + 1)) ∧
    ((ActiveRpc.upstreamData 0 (RdOnDataOutcome.throwDecode "trunc") c10State).map
        (fun p => (p.1, p.2.stats.response_decoding_error, p.2.upstream_resets))
      = some (true, c10State.stats.response_decoding_error + 1,
              c10State.upstream_resets + 1)) := by
  have h := upstreamData_exception_paths_return_true 0 c10State c10Rpc
    freshResponseDecoder callMeta
    { type := AppExceptionType.ProtocolError, what := "u" } "trunc"
    (by decide) (by decide) (by decide)
  exact ⟨⟨by decide, by decide, by decide⟩, h.1, h.2⟩

end ThriftProxy
